import Mathlib

/-!
Verification development for the design-scheme extractor
(src/design_scheme_extractor.py).

The Python source is shallowly embedded below.  Pure string/number
manipulation is translated directly; values obtained from the browser
(computed styles, element lookups) are inputs of the embedded functions;
a Python exception inside a try-block is represented by an explicit
outcome parameter (an Option or a Bool flag), since the raising itself
comes from the foreign browser/IO layer.

One genuine source of nondeterminism is modelled explicitly: in
extract_color_palette the Python code builds the Python set
valid_hex_colors and then iterates it (sorted_colors = list(valid_hex_colors)).
The iteration order of a Python set of strings is not a function of the
set's contents (string hashing is randomized per process), so the
embedding takes the enumeration as an extra list argument constrained to
be a permutation of the canonically-ordered list validHexList.
-/

namespace DesignScraper

/-- Lowercasing of a single character, ASCII range (models Python
str.lower on the color/font strings handled here). -/
def toLowerChar (c : Char) : Char :=
  if 'A' ≤ c && c ≤ 'Z' then Char.ofNat (c.toNat + 32) else c

/-- Lowercase an entire string (Python str.lower). -/
def lowerStr (s : String) : String :=
  String.mk (s.data.map toLowerChar)

/-- Does the character list start with the given needle (helper for the
Python substring operator). -/
def startsWithChars : List Char → List Char → Bool
  | [], _ => true
  | a :: as, hay =>
    match hay with
    | [] => false
    | b :: bs => a == b && startsWithChars as bs

/-- Python substring test: needle in haystack. -/
def hasSubstr (needle : List Char) : List Char → Bool
  | [] => needle.isEmpty
  | c :: rest => startsWithChars needle (c :: rest) || hasSubstr needle rest

/-- Test for the lowercased string containing "rgb"
(Python: 'rgb' in rgb_str.lower()). -/
def containsRGB (s : String) : Bool :=
  hasSubstr ['r', 'g', 'b'] (lowerStr s).data

/-- ASCII digit test (Python regex class backslash-d on these inputs). -/
def isDigitChar (c : Char) : Bool :=
  '0' ≤ c && c ≤ '9'

/-- Accumulator-based splitting of a character list into maximal runs of
digits (Python re.findall of one-or-more digits). -/
def digitRunsAux : List Char → List Char → List (List Char)
  | [], acc => if acc.isEmpty then [] else [acc.reverse]
  | c :: cs, acc =>
    if isDigitChar c then digitRunsAux cs (c :: acc)
    else if acc.isEmpty then digitRunsAux cs []
    else acc.reverse :: digitRunsAux cs []

/-- All maximal digit runs of a character list, in order. -/
def digitRuns (l : List Char) : List (List Char) :=
  digitRunsAux l []

/-- Numeric value of a digit run (Python int on a digit string). -/
def runToNat (ds : List Char) : Nat :=
  ds.foldl (fun acc c => acc * 10 + (c.toNat - 48)) 0

/-- Clamp to the byte range (Python max(0, min(v, 255)); the value is
already a Nat so the lower clamp is a no-op kept for fidelity). -/
def pyClamp (n : Nat) : Nat :=
  max 0 (min n 255)

/-- Lowercase hex digit for a value below 16. -/
def hexDigitChar (n : Nat) : Char :=
  if n < 10 then Char.ofNat (48 + n) else Char.ofNat (87 + n)

/-- Fuelled big-endian hex digit expansion of a Nat. -/
def toHexAux : Nat → Nat → List Char
  | 0, _ => []
  | fuel + 1, n =>
    if n < 16 then [hexDigitChar n]
    else toHexAux fuel (n / 16) ++ [hexDigitChar (n % 16)]

/-- Python format spec 02x: lowercase hex, zero-padded to width 2, wider
if the value needs more digits. -/
def fmt02x (n : Nat) : List Char :=
  if (toHexAux (n + 1) n).length < 2 then '0' :: toHexAux (n + 1) n else toHexAux (n + 1) n

/-- Character list of a formatted color literal
(Python f-string hash r:02x g:02x b:02x). -/
def fmtColorChars (r g b : Nat) : List Char :=
  '#' :: (fmt02x r ++ fmt02x g ++ fmt02x b)

/-- Formatted color literal as a string. -/
def fmtColor (r g b : Nat) : String :=
  String.mk (fmtColorChars r g b)

/-- The sixteen lowercase hex digit characters. -/
def lowerHexDigits : List Char :=
  "0123456789abcdef".data

/-- Hex digit characters of either case (the regex class 0-9a-fA-F). -/
def hexDigitsAnyCase : List Char :=
  lowerHexDigits ++ "ABCDEF".data

/-- The validation regex of the source, anchored hash then exactly six
hex digits of either case. -/
def isValidSixHex (s : String) : Bool :=
  match s.data with
  | c :: rest => c == '#' && rest.length == 6 && rest.all (hexDigitsAnyCase.contains ·)
  | [] => false

/-- The strict lowercase color pattern, anchored hash then exactly six
lowercase hex digits. -/
def isLowerHexColor (s : String) : Bool :=
  match s.data with
  | c :: rest => c == '#' && rest.length == 6 && rest.all (lowerHexDigits.contains ·)
  | [] => false

/-- Embedding of rgb_to_hex (source lines 79-95).  Returns none when the
string is empty or lacks the substring "rgb" case-insensitively, or when
fewer than three digit runs are found; otherwise formats the first three
runs, each clamped to 0..255, as a lowercase hex color. -/
def rgb_to_hex (s : String) : Option String :=
  if s.data.isEmpty || !(containsRGB s) then none
  else
    match digitRuns s.data with
    | r :: g :: b :: _ =>
      some (fmtColor (pyClamp (runToNat r)) (pyClamp (runToNat g)) (pyClamp (runToNat b)))
    | _ => none

/-- Raw inputs of the Color Resolver: the dominant RGB triples from the
screenshot, the enumerations of the two raw color-string sets collected
from computed styles and CSS rules, and the body background/text color
strings (none when the browser query raised). -/
structure ColorInputs where
  dominant : List (Nat × Nat × Nat)
  computedRaw : List String
  cssRuleVals : List String
  bodyColors : Option (String × String)
deriving DecidableEq

/-- Dominant screenshot colors formatted as hex (source line 127;
note the source applies no clamping on this path). -/
def hexDominant (inp : ColorInputs) : List String :=
  inp.dominant.map (fun t => fmtColor t.1 t.2.1 t.2.2)

/-- All candidate hex colors before validity filtering, in discovery
order: dominant colors, then converted computed styles, then converted
CSS rule values (the union at source line 191 as a list). -/
def allHexCandidates (inp : ColorInputs) : List String :=
  hexDominant inp ++ inp.computedRaw.filterMap rgb_to_hex ++ inp.cssRuleVals.filterMap rgb_to_hex

/-- Keep the first occurrence of every element (the contents of a Python
set in first-insertion order). -/
def firstOccurrences : List String → List String
  | [] => []
  | x :: xs => x :: (firstOccurrences xs).filter (fun y => y ≠ x)

/-- The set valid_hex_colors of the source (line 192) as a list in
first-discovery order. -/
def validHexList (inp : ColorInputs) : List String :=
  firstOccurrences ((allHexCandidates inp).filter isValidSixHex)

/-- Background and text resolution (source lines 198-206): when the body
query raised, both default; otherwise each is converted with fallback. -/
def resolveBgText : Option (String × String) → String × String
  | none => ("#ffffff", "#000000")
  | some (bgRaw, txtRaw) =>
    ((rgb_to_hex bgRaw).getD "#ffffff", (rgb_to_hex txtRaw).getD "#000000")

/-- Python slice s a:b on the character list of a string. -/
def sliceChars (s : String) (a b : Nat) : List Char :=
  (s.data.drop a).take (b - a)

/-- Grayscale test of the source (line 210): the three hex byte pairs
are pairwise equal. -/
def isGrayscale (s : String) : Bool :=
  sliceChars s 1 3 == sliceChars s 3 5 && sliceChars s 3 5 == sliceChars s 5 7

/-- The filter "c.lower() not in [bg.lower(), txt.lower()]". -/
def notBgText (bg txt c : String) : Bool :=
  !(lowerStr c == lowerStr bg) && !(lowerStr c == lowerStr txt)

/-- The non-grayscale candidate filter of source line 210. -/
def nonGrayCandidates (colorsList : List String) (bg txt : String) : List String :=
  colorsList.filter (fun c => notBgText bg txt c && !(isGrayscale c))

/-- Python local potential_primaries of source line 218. -/
def potentialPrimaries (colorsList : List String) (bg txt : String) : List String :=
  colorsList.filter (fun c => notBgText bg txt c)

/-- Python local primary_color of source line 219. -/
def pickPrimary (colorsList : List String) (bg txt : String) : String :=
  (potentialPrimaries colorsList bg txt).headD (colorsList.getD 0 "")

/-- Python local potential_secondaries of source line 220. -/
def potentialSecondaries (colorsList : List String) (bg txt primary : String) : List String :=
  colorsList.filter (fun c => notBgText bg txt c && !(lowerStr c == lowerStr primary))

/-- Python local secondary_color of source line 221. -/
def pickSecondary (colorsList : List String) (bg txt primary : String) : String :=
  (potentialSecondaries colorsList bg txt primary).headD
    (if 1 < colorsList.length then colorsList.getD 1 "" else primary)

/-- Python local potential_accents of source line 222. -/
def potentialAccents (colorsList : List String) (bg txt primary secondary : String) : List String :=
  colorsList.filter
    (fun c => notBgText bg txt c && !(lowerStr c == lowerStr primary)
      && !(lowerStr c == lowerStr secondary))

/-- Python local accent_color of source line 223. -/
def pickAccent (colorsList : List String) (bg txt primary secondary : String) : String :=
  (potentialAccents colorsList bg txt primary secondary).headD
    (if 2 < colorsList.length then colorsList.getD 2 "" else secondary)

/-- Role assignment for primary/secondary/accent (source lines 209-236),
as a function of the enumeration order of the valid color set. -/
def assignRoles (colorsList : List String) (bg txt : String) : String × String × String :=
  if 3 ≤ (nonGrayCandidates colorsList bg txt).length then
    ((nonGrayCandidates colorsList bg txt).getD 0 "",
     (nonGrayCandidates colorsList bg txt).getD 1 "",
     (nonGrayCandidates colorsList bg txt).getD 2 "")
  else if 3 ≤ colorsList.length then
    (pickPrimary colorsList bg txt,
     pickSecondary colorsList bg txt (pickPrimary colorsList bg txt),
     pickAccent colorsList bg txt (pickPrimary colorsList bg txt)
       (pickSecondary colorsList bg txt (pickPrimary colorsList bg txt)))
  else if colorsList.length = 2 then
    (colorsList.getD 0 "", colorsList.getD 1 "", colorsList.getD 0 "")
  else if colorsList.length = 1 then
    (colorsList.getD 0 "",
     if !(lowerStr (colorsList.getD 0 "") == lowerStr txt) then txt else bg,
     colorsList.getD 0 "")
  else
    ("#0000ff", "#d3d3d3", "#ffa500")

/-- Boolean lexicographic comparison of character lists by code point
(the comparison Python sorted uses on these strings). -/
def charListLe : List Char → List Char → Bool
  | [], _ => true
  | a :: as, hay =>
    match hay with
    | [] => false
    | b :: bs => if a < b then true else if b < a then false else charListLe as bs

/-- Boolean string comparison by code points. -/
def strLe (a b : String) : Bool :=
  charListLe a.data b.data

/-- The string order as a relation, for sorting. -/
def sLE (a b : String) : Prop :=
  strLe a b = true

instance : DecidableRel sLE :=
  fun a b => instDecidableEqBool (strLe a b) true

/-- Python sorted on a list of strings. -/
def pySorted (l : List String) : List String :=
  List.insertionSort sLE l

/-- The colors dictionary returned by extract_color_palette
(source lines 238-245). -/
structure ColorScheme where
  primary_color : String
  secondary_color : String
  accent_color : String
  background_color : String
  text_color : String
  palette : List String
deriving DecidableEq

/-- Embedding of extract_color_palette (source lines 97-245).  setEnum is
the enumeration of the Python set valid_hex_colors; the claims constrain
it to be a permutation of validHexList inp. -/
def extract_color_palette (inp : ColorInputs) (setEnum : List String) : ColorScheme :=
  let bgtxt := resolveBgText inp.bodyColors
  let roles := assignRoles setEnum bgtxt.1 bgtxt.2
  { primary_color := roles.1
    secondary_color := roles.2.1
    accent_color := roles.2.2
    background_color := bgtxt.1
    text_color := bgtxt.2
    palette := (pySorted setEnum).take 15 }

/-- Typography descriptor for body text (all four fields present). -/
structure TypoDescriptor where
  font_family : String
  font_size : String
  font_weight : String
  line_height : String
deriving DecidableEq

/-- Typography descriptor for a heading level. -/
structure HeadingDescriptor where
  font_family : String
  font_size : String
  font_weight : String
deriving DecidableEq

/-- Typography section of the schema: a body descriptor and an optional
descriptor per heading level. -/
structure Typography where
  body : TypoDescriptor
  h1 : Option HeadingDescriptor
  h2 : Option HeadingDescriptor
  h3 : Option HeadingDescriptor
  h4 : Option HeadingDescriptor
  h5 : Option HeadingDescriptor
  h6 : Option HeadingDescriptor
deriving DecidableEq

/-- Quote characters stripped from font families
(Python str.strip of double and single quote). -/
def isQuoteChar (c : Char) : Bool :=
  c == '"' || c == Char.ofNat 39

/-- Strip leading and trailing quote characters (Python str.strip). -/
def stripQuotes (s : String) : String :=
  String.mk (((s.data.dropWhile isQuoteChar).reverse.dropWhile isQuoteChar).reverse)

/-- Python truthiness of an optional string: present and non-empty. -/
def truthyStr : Option String → Bool
  | none => false
  | some s => !s.isEmpty

/-- Default substitution of a possibly-missing, possibly-empty computed
style value (the pattern value if value else default of the source). -/
def defaultIfFalsy (x : Option String) (dflt : String) (f : String → String) : String :=
  match x with
  | none => dflt
  | some s => if s.isEmpty then dflt else f s

/-- Raw browser results feeding extract_typography: the body computed
styles (none when the body lookup raised) and, per heading level, the
computed family/size/weight of the first visible element (none when no
visible element was found or the query raised). -/
structure TypographyInputs where
  bodyStyles : Option (Option String × Option String × Option String × Option String)
  h1 : Option (Option String × Option String × Option String)
  h2 : Option (Option String × Option String × Option String)
  h3 : Option (Option String × Option String × Option String)
  h4 : Option (Option String × Option String × Option String)
  h5 : Option (Option String × Option String × Option String)
  h6 : Option (Option String × Option String × Option String)

/-- Heading descriptor construction (source lines 313-320): included
only when family, size and weight are all truthy; the family is stripped
of surrounding quotes. -/
def extract_typography_heading (fam siz wei : Option String) : Option HeadingDescriptor :=
  match fam, siz, wei with
  | some f, some s, some w =>
    if !f.isEmpty && !s.isEmpty && !w.isEmpty then some ⟨stripQuotes f, s, w⟩ else none
  | _, _, _ => none

/-- Embedding of the body/headings part of extract_typography
(source lines 272-323). -/
def extract_typography (ti : TypographyInputs) : Typography :=
  { body :=
      match ti.bodyStyles with
      | none => ⟨"sans-serif", "16px", "400", "normal"⟩
      | some (f, s, w, lh) =>
        ⟨defaultIfFalsy f "sans-serif" stripQuotes,
         defaultIfFalsy s "16px" id,
         defaultIfFalsy w "400" id,
         defaultIfFalsy lh "normal" id⟩
    h1 := ti.h1.bind (fun t => extract_typography_heading t.1 t.2.1 t.2.2)
    h2 := ti.h2.bind (fun t => extract_typography_heading t.1 t.2.1 t.2.2)
    h3 := ti.h3.bind (fun t => extract_typography_heading t.1 t.2.1 t.2.2)
    h4 := ti.h4.bind (fun t => extract_typography_heading t.1 t.2.1 t.2.2)
    h5 := ti.h5.bind (fun t => extract_typography_heading t.1 t.2.1 t.2.2)
    h6 := ti.h6.bind (fun t => extract_typography_heading t.1 t.2.1 t.2.2) }

/-- Layout section fields used by the claims. -/
structure LayoutInfo where
  has_grid_system : Bool
  container_width : Option Nat
  common_spacing_units : List String
deriving DecidableEq

/-- Component section fields used by the claims. -/
structure ComponentsInfo where
  buttons_border_radius : Option String
  cards_border_radius : Option String
  cards_box_shadow : Option String
  nav_box_shadow : Option String
deriving DecidableEq

/-- Image section fields used by the claims. -/
structure ImagesInfo where
  image_border_radius : Option String
  image_box_shadow : Option String
  has_svg_icons : Bool
  has_icon_font : Bool
deriving DecidableEq

/-- Spacing ranking of analyze_layout (source lines 443-447): empty when
no samples were collected, otherwise the five most frequent samples,
ties broken by first observation (Counter.most_common over a stable
descending sort of first-insertion-ordered entries). -/
def common_spacing_units (samples : List String) : List String :=
  if samples.isEmpty then []
  else ((firstOccurrences samples).insertionSort
    (fun a b => samples.count b ≤ samples.count a)).take 5

/-- Palette-size keyword segment (source lines 813-818): guarded by the
truthiness of the palette list, so an empty palette adds nothing. -/
def paletteSeg (palette : List String) : List String :=
  if !palette.isEmpty then
    if 6 < palette.length then ["high-contrast"]
    else if palette.length ≤ 4 then ["limited-palette"]
    else []
  else []

/-- Rounding test of source line 830: present, non-empty, and neither
0px nor 0 percent. -/
def radiusIsRounding : Option String → Bool
  | none => false
  | some s => !s.isEmpty && !(s == "0px") && !(s == "0%")

/-- Heading font for the serif check (source lines 847-854): the first
of h1/h2/h3 present, lowercased, falling back to the body font when
absent or empty. -/
def pickHeadingFontLower (typ : Typography) : String :=
  let hf : String :=
    match typ.h1, typ.h2, typ.h3 with
    | some h, _, _ => lowerStr h.font_family
    | none, some h, _ => lowerStr h.font_family
    | none, none, some h => lowerStr h.font_family
    | none, none, none => ""
  if hf.isEmpty then lowerStr typ.body.font_family else hf

/-- Serif indicator substrings of source line 856. -/
def serifIndicators : List String :=
  ["serif", "georgia", "times", "palatino", "bookman", "charter"]

/-- Serif test: any indicator occurs in the lowercased font name. -/
def isSerifFont (fontLower : String) : Bool :=
  serifIndicators.any (fun ind => hasSubstr ind.data fontLower.data)

/-- Truthiness of the numeric container width (zero and absent are both
falsy in Python). -/
def containerTruthy : Option Nat → Bool
  | none => false
  | some w => !(w == 0)

/-- The style keywords in insertion order before set-deduplication and
sorting (source lines 810-875). -/
def styleKeywordsRaw (colors : ColorScheme) (typ : Typography) (lay : LayoutInfo)
    (comp : ComponentsInfo) (imgs : ImagesInfo) : List String :=
  paletteSeg colors.palette
  ++ (if radiusIsRounding comp.buttons_border_radius || radiusIsRounding comp.cards_border_radius
        || radiusIsRounding imgs.image_border_radius
      then ["rounded-corners"] else ["sharp-corners"])
  ++ (if truthyStr comp.cards_box_shadow || truthyStr imgs.image_box_shadow
        || truthyStr comp.nav_box_shadow
      then ["uses-shadows"] else ["flat-design"])
  ++ (if isSerifFont (pickHeadingFontLower typ)
      then ["serif-typography"] else ["sans-serif-typography"])
  ++ (if lay.has_grid_system then ["grid-layout"] else [])
  ++ (if containerTruthy lay.container_width then ["contained-width"] else ["full-width-layout"])
  ++ (if imgs.has_svg_icons then ["svg-icons"]
      else if imgs.has_icon_font then ["icon-font"] else [])

/-- Final style keywords: the keyword set sorted alphabetically
(source line 877). -/
def style_keywords (colors : ColorScheme) (typ : Typography) (lay : LayoutInfo)
    (comp : ComponentsInfo) (imgs : ImagesInfo) : List String :=
  pySorted (firstOccurrences (styleKeywordsRaw colors typ lay comp imgs))

/-- The canonical design schema fields used by the claims (the metadata
timestamp is external IO and excluded). -/
structure DesignSchema where
  source_url : String
  colors : ColorScheme
  typography : Typography
  layout : LayoutInfo
  components : ComponentsInfo
  images : ImagesInfo
  style_keywords : List String
deriving DecidableEq

/-- Embedding of generate_design_schema (source lines 778-879): combines
the resolver outputs and derives the style keywords. -/
def generate_design_schema (url : String) (colors : ColorScheme) (typ : Typography)
    (lay : LayoutInfo) (comp : ComponentsInfo) (imgs : ImagesInfo) : DesignSchema :=
  ⟨url, colors, typ, lay, comp, imgs, style_keywords colors typ lay comp imgs⟩

/-- Leading digit run of a string (Python re.match of one-or-more digits
anchored at the start). -/
def leadingDigits (s : String) : Option String :=
  let ds := s.data.takeWhile isDigitChar
  if ds.isEmpty then none else some (String.mk ds)

/-- Spacing base of generate_design_code_snippets (source lines
1409-1415): 8 by default, else the leading integer of the first common
spacing unit when one exists. -/
def snippetSpacingBase (units : List String) : String :=
  match units with
  | [] => "8"
  | u :: _ => (leadingDigits u).getD "8"

/-- Python "a or b" over optional strings with string truthiness. -/
def pyOrOpt (a b : Option String) : Option String :=
  match a with
  | some s => if s.isEmpty then b else some s
  | none => b

/-- Corner-radius base of generate_design_code_snippets (source lines
1418-1426): button radius, else card radius, else 4; the chosen value
contributes its leading integer when present. -/
def snippetRadiusBase (btnRadius cardRadius : Option String) : String :=
  match pyOrOpt btnRadius cardRadius with
  | none => "4"
  | some r => if r.isEmpty then "4" else (leadingDigits r).getD "4"

/-- Python whitespace characters for str.strip. -/
def isSpaceChar (c : Char) : Bool :=
  c == ' ' || c == Char.ofNat 9 || c == Char.ofNat 10 || c == Char.ofNat 13
    || c == Char.ofNat 11 || c == Char.ofNat 12

/-- Strip leading and trailing whitespace (Python str.strip). -/
def stripWS (s : String) : String :=
  String.mk (((s.data.dropWhile isSpaceChar).reverse.dropWhile isSpaceChar).reverse)

/-- First entry of a font stack, trimmed and unquoted (the Python chain
split comma, index 0, strip, strip quotes). -/
def firstStackEntry (s : String) : String :=
  stripQuotes (stripWS (String.mk (s.data.takeWhile (fun c => !(c == ',')))))

/-- Heading font stack used by the code-snippet deriver (source lines
1401-1406): first of h1/h2/h3 present, else the body stack. -/
def headingFontRaw (typ : Typography) (bodyRaw : String) : String :=
  match typ.h1, typ.h2, typ.h3 with
  | some h, _, _ => h.font_family
  | none, some h, _ => h.font_family
  | none, none, some h => h.font_family
  | none, none, none => bodyRaw

/-- The substitution values the three snippet templates share (source
lines 1388-1427); the surrounding literal template text is not
modelled. -/
structure SnippetParams where
  primary : String
  secondary : String
  accent : String
  background : String
  text_color : String
  body_font : String
  heading_font : String
  spacing_unit : String
  border_radius : String
deriving DecidableEq

/-- Derivation of the snippet substitution values from the schema. -/
def computeSnippetParams (schema : DesignSchema) : SnippetParams :=
  let bodyRaw := schema.typography.body.font_family
  let headRaw := headingFontRaw schema.typography bodyRaw
  { primary := schema.colors.primary_color
    secondary := schema.colors.secondary_color
    accent := schema.colors.accent_color
    background := schema.colors.background_color
    text_color := schema.colors.text_color
    body_font := firstStackEntry bodyRaw
    heading_font := firstStackEntry headRaw
    spacing_unit := snippetSpacingBase schema.layout.common_spacing_units ++ "px"
    border_radius := snippetRadiusBase schema.components.buttons_border_radius
      schema.components.cards_border_radius ++ "px" }

/-- Embedding of generate_design_code_snippets (source lines 1371-1544):
the whole body is wrapped in a try that returns None on failure; the
bodyRaises flag is the oracle for that foreign-layer exception. -/
def generate_design_code_snippets (schema : DesignSchema) (bodyRaises : Bool) :
    Option SnippetParams :=
  if bodyRaises then none else some (computeSnippetParams schema)

/-- The ai_consumption section fields used by the claims. -/
structure AIConsumption where
  full_palette_hex : List String
deriving DecidableEq

/-- Schema with the optional ai_consumption section. -/
structure AISchema where
  base : DesignSchema
  ai_consumption : Option AIConsumption
deriving DecidableEq

/-- Embedding of optimize_for_ai_consumption (source lines 1247-1369):
on deep-copy failure the original schema is returned unchanged (no
ai_consumption section); otherwise the copy gains the section, whose
full_palette_hex is the schema palette. -/
def optimize_for_ai_consumption (schema : DesignSchema)
    (deepCopyOutcome : Option DesignSchema) : AISchema :=
  match deepCopyOutcome with
  | none => ⟨schema, none⟩
  | some copy => ⟨copy, some ⟨copy.colors.palette⟩⟩

/-- Documentation header rendering (the claims only need that a
successful run yields this non-degenerate text). -/
def renderDocumentation (schema : DesignSchema) : String :=
  "# Design Scheme Documentation" ++ String.mk [Char.ofNat 10]
    ++ "*Source URL: " ++ schema.source_url ++ "*"

/-- Embedding of generate_documentation (source lines 1546-1701): the
whole body is wrapped in a try that returns the empty string on failure
(source lines 1699-1701). -/
def generate_documentation (schema : DesignSchema) (bodyRaises : Bool) : String :=
  if bodyRaises then "" else renderDocumentation schema

/-- The three artifact slots of the results dictionary (initialized to
None in extract_design_scheme_extended). -/
structure ArtifactResults where
  ai_optimized_schema : Option AISchema
  code_snippets : Option SnippetParams
  documentation : Option String
deriving DecidableEq

/-- Steps 7-9 of extract_design_scheme_extended (source lines
1780-1799): the three derivers run independently on the same schema,
each guarded by its generation flag, each storing whatever its deriver
returned. -/
def extract_artifacts (schema : DesignSchema) (optimizeAI generateCode generateDocs : Bool)
    (aiCopyOutcome : Option DesignSchema) (codeRaises docRaises : Bool) : ArtifactResults :=
  { ai_optimized_schema :=
      if optimizeAI then some (optimize_for_ai_consumption schema aiCopyOutcome) else none
    code_snippets :=
      if generateCode then generate_design_code_snippets schema codeRaises else none
    documentation :=
      if generateDocs then some (generate_documentation schema docRaises) else none }

/-- An enhancement plugin: the categories it applies to and its
enhance_schema body.  The body yields ok with the new schema, or error
with the schema state left behind when it raised (the caller catches the
exception, so both cases continue the fold). -/
structure Plugin (σ : Type) where
  applicable_types : List String
  enhance : σ → Except σ σ

/-- Embedding of DesignSchemeExtractorPlugin.applies_to (source lines
1155-1157): membership of the detected type in the declared list. -/
def Plugin.applies_to {σ : Type} (p : Plugin σ) (t : String) : Bool :=
  p.applicable_types.contains t

/-- One iteration of the plugin loop (source lines 1229-1236): an
applicable plugin's result (or its caught-failure state) replaces the
schema; a non-applicable plugin is skipped. -/
def applyPlugin {σ : Type} (t : String) (s : σ) (p : Plugin σ) : σ :=
  if p.applies_to t then
    match p.enhance s with
    | Except.ok s2 => s2
    | Except.error sExc => sExc
  else s

/-- Embedding of enhance_with_plugins (source lines 1223-1243). -/
def enhance_with_plugins {σ : Type} (plugins : List (Plugin σ)) (schema : σ) (t : String) : σ :=
  plugins.foldl (applyPlugin t) schema

/-- Absence of surrounding quote characters on a string. -/
def noSurroundingQuotes (s : String) : Bool :=
  (match s.data.head? with
   | none => true
   | some c => !(isQuoteChar c)) &&
  (match s.data.getLast? with
   | none => true
   | some c => !(isQuoteChar c))

/-- Exactly one of two tags occurs in a keyword list. -/
def exactlyOne (a b : String) (l : List String) : Prop :=
  (a ∈ l ∧ b ∉ l) ∨ (b ∈ l ∧ a ∉ l)

instance (a b : String) (l : List String) : Decidable (exactlyOne a b l) := by
  unfold exactlyOne
  infer_instance

/-- A role color can only come from the enumerated color set, the
background, the text color, or one of the three absolute defaults. -/
def roleSource (e : List String) (bg txt c : String) : Prop :=
  c ∈ e ∨ c = bg ∨ c = txt ∨ c = "#0000ff" ∨ c = "#d3d3d3" ∨ c = "#ffa500"

/-- The shape of the raw keyword list: an abstract palette segment, five
independent condition bits, and an abstract icon segment. -/
def keywordShape (s1 : List String) (b2 b3 b4 b5 b6 : Bool) (s7 : List String) : List String :=
  s1 ++ (if b2 then ["rounded-corners"] else ["sharp-corners"])
    ++ (if b3 then ["uses-shadows"] else ["flat-design"])
    ++ (if b4 then ["serif-typography"] else ["sans-serif-typography"])
    ++ (if b5 then ["grid-layout"] else [])
    ++ (if b6 then ["contained-width"] else ["full-width-layout"])
    ++ s7

/-- Concrete run: three distinct non-grayscale colors supplied through
the CSS-rule source only. -/
def inputsNondet : ColorInputs :=
  ⟨[], [], ["rgb(255,0,1)", "rgb(255,0,2)", "rgb(255,0,3)"], none⟩

/-- A second possible enumeration of the same valid color set. -/
def enumNondet : List String :=
  ["#ff0002", "#ff0001", "#ff0003"]

/-- Concrete run: two dominant screenshot colors discovered in the order
red then green. -/
def inputsSortDemo : ColorInputs :=
  ⟨[(255, 0, 0), (0, 255, 0)], [], [], none⟩

/-- Concrete run hitting the fallback role tier: one non-grayscale and
two grayscale colors, so fewer than three non-gray candidates but three
colors in total. -/
def inputsFallback : ColorInputs :=
  ⟨[], [], ["rgb(255,0,1)", "rgb(10,10,10)", "rgb(20,20,20)"], none⟩

/-- Concrete run: no color is detected by any source. -/
def zeroInputs : ColorInputs :=
  ⟨[], [], [], none⟩

/-- Concrete typography with no headings and default body values. -/
def typEmpty : Typography :=
  ⟨⟨"sans-serif", "16px", "400", "normal"⟩, none, none, none, none, none, none⟩

/-- Concrete layout with nothing detected. -/
def layEmpty : LayoutInfo :=
  ⟨false, none, []⟩

/-- Concrete component section with nothing detected. -/
def compEmpty : ComponentsInfo :=
  ⟨none, none, none, none⟩

/-- Concrete image section with nothing detected. -/
def imgsEmpty : ImagesInfo :=
  ⟨none, none, false, false⟩

/-- A concrete assembled schema used by the artifact-deriver claims. -/
def sampleSchema : DesignSchema :=
  generate_design_schema "https://example.com"
    (extract_color_palette inputsSortDemo (validHexList inputsSortDemo))
    typEmpty layEmpty compEmpty imgsEmpty

/-- A plugin over Nat schemas registered only for the wordpress
category. -/
def wpPluginNat : Plugin Nat :=
  ⟨["wordpress"], fun n => Except.ok (n + 1)⟩

/-- A plugin over Nat schemas that always raises. -/
def failPluginNat : Plugin Nat :=
  ⟨["general"], fun n => Except.error n⟩

/-- Typography inputs for a run where every browser query raised. -/
def tiNoneInputs : TypographyInputs :=
  ⟨none, none, none, none, none, none, none⟩

/-- Totality of the character-list comparison. -/
theorem charListLe_total : ∀ as bs : List Char, charListLe as bs = true ∨ charListLe bs as = true := by
  intro as
  induction as with
  | nil => intro bs; left; rfl
  | cons a as ih =>
    intro bs
    cases bs with
    | nil => right; rfl
    | cons b bs =>
      rcases lt_trichotomy a b with hab | hab | hab
      · left; simp [charListLe, hab]
      · subst hab
        rcases ih bs with h | h
        · left; simp [charListLe, lt_irrefl, h]
        · right; simp [charListLe, lt_irrefl, h]
      · right; simp [charListLe, hab]

/-- Transitivity of the character-list comparison. -/
theorem charListLe_trans : ∀ as bs cs : List Char,
    charListLe as bs = true → charListLe bs cs = true → charListLe as cs = true := by
  intro as
  induction as with
  | nil => intro bs cs _ _; rfl
  | cons a as ih =>
    intro bs cs h1 h2
    cases bs with
    | nil => simp [charListLe] at h1
    | cons b bs =>
      cases cs with
      | nil => simp [charListLe] at h2
      | cons c cs =>
        simp only [charListLe] at h1 h2 ⊢
        rcases lt_trichotomy a b with hab | hab | hab
        · rcases lt_trichotomy b c with hbc | hbc | hbc
          · simp [lt_trans hab hbc]
          · subst hbc; simp [hab]
          · simp [asymm hbc, hbc] at h2
        · subst hab
          rcases lt_trichotomy a c with hac | hac | hac
          · simp [hac]
          · subst hac
            simp only [lt_irrefl, if_false] at h1 h2 ⊢
            exact ih _ _ h1 h2
          · simp [asymm hac, hac] at h2
        · simp [asymm hab, hab] at h1

/-- Antisymmetry of the character-list comparison. -/
theorem charListLe_antisymm : ∀ as bs : List Char,
    charListLe as bs = true → charListLe bs as = true → as = bs := by
  intro as
  induction as with
  | nil =>
    intro bs h1 h2
    cases bs with
    | nil => rfl
    | cons b bs => simp [charListLe] at h2
  | cons a as ih =>
    intro bs h1 h2
    cases bs with
    | nil => simp [charListLe] at h1
    | cons b bs =>
      simp only [charListLe] at h1 h2
      rcases lt_trichotomy a b with hab | hab | hab
      · simp [asymm hab, hab] at h2
      · subst hab
        simp only [lt_irrefl, if_false] at h1 h2
        rw [ih bs h1 h2]
      · simp [asymm hab, hab] at h1

/-- Totality of the string order. -/
theorem sLE_total (a b : String) : sLE a b ∨ sLE b a :=
  charListLe_total a.data b.data

/-- Transitivity of the string order. -/
theorem sLE_trans (a b c : String) : sLE a b → sLE b c → sLE a c :=
  charListLe_trans a.data b.data c.data

/-- Antisymmetry of the string order. -/
theorem sLE_antisymm (a b : String) : sLE a b → sLE b a → a = b := by
  intro h1 h2
  have h := charListLe_antisymm a.data b.data h1 h2
  cases a with
  | mk da =>
    cases b with
    | mk db => exact congrArg String.mk h

/-- Python sorted yields a permutation of its input. -/
theorem pySorted_perm (l : List String) : (pySorted l).Perm l :=
  List.perm_insertionSort sLE l

/-- Python sorted yields a list sorted under the string order. -/
theorem pySorted_sorted (l : List String) : List.Sorted sLE (pySorted l) := by
  haveI : IsTotal String sLE := ⟨sLE_total⟩
  haveI : IsTrans String sLE := ⟨sLE_trans⟩
  exact List.sorted_insertionSort sLE l

/-- Sorting two permuted lists yields the same list. -/
theorem pySorted_eq_of_perm {l1 l2 : List String} (h : l1.Perm l2) :
    pySorted l1 = pySorted l2 := by
  haveI : IsAntisymm String sLE := ⟨sLE_antisymm⟩
  exact List.eq_of_perm_of_sorted
    ((pySorted_perm l1).trans (h.trans (pySorted_perm l2).symm))
    (pySorted_sorted l1) (pySorted_sorted l2)

/-- Membership in the first-occurrence deduplication. -/
theorem mem_firstOccurrences {x : String} : ∀ {l : List String},
    x ∈ firstOccurrences l ↔ x ∈ l := by
  intro l
  induction l with
  | nil => simp [firstOccurrences]
  | cons y ys ih =>
    simp only [firstOccurrences, List.mem_cons, List.mem_filter]
    constructor
    · rintro (rfl | ⟨hmem, _⟩)
      · exact Or.inl rfl
      · exact Or.inr (ih.1 hmem)
    · rintro (rfl | hmem)
      · exact Or.inl rfl
      · by_cases hxy : x = y
        · exact Or.inl hxy
        · exact Or.inr ⟨ih.2 hmem, by simpa using hxy⟩

/-- The first-occurrence deduplication has no duplicates. -/
theorem nodup_firstOccurrences : ∀ l : List String, (firstOccurrences l).Nodup := by
  intro l
  induction l with
  | nil => simp [firstOccurrences]
  | cons y ys ih =>
    simp only [firstOccurrences]
    refine List.Nodup.cons ?_ (List.Nodup.filter _ ih)
    intro hmem
    rcases List.mem_filter.1 hmem with ⟨_, hne⟩
    simp at hne

/-- A getD access below the length is a member. -/
theorem getD_mem {α : Type} {l : List α} {i : Nat} (d : α) (h : i < l.length) :
    l.getD i d ∈ l := by
  rw [List.getD_eq_getElem l d h]
  exact List.getElem_mem h

/-- Every hex digit character of a value below 16 is lowercase hex. -/
theorem hexDigitChar_mem {n : Nat} (h : n < 16) : hexDigitChar n ∈ lowerHexDigits := by
  interval_cases n <;> decide

/-- Every character the hex expansion emits is a lowercase hex digit. -/
theorem toHexAux_chars : ∀ (fuel n : Nat), ∀ c ∈ toHexAux fuel n, c ∈ lowerHexDigits := by
  intro fuel
  induction fuel with
  | zero => intro n c hc; simp [toHexAux] at hc
  | succ fuel ih =>
    intro n c hc
    simp only [toHexAux] at hc
    by_cases h : n < 16
    · rw [if_pos h] at hc
      simp only [List.mem_singleton] at hc
      exact hc ▸ hexDigitChar_mem h
    · rw [if_neg h] at hc
      rcases List.mem_append.1 hc with h1 | h1
      · exact ih _ _ h1
      · simp only [List.mem_singleton] at h1
        exact h1 ▸ hexDigitChar_mem (Nat.mod_lt _ (by norm_num))

/-- Every character of the 02x formatting is a lowercase hex digit. -/
theorem fmt02x_chars : ∀ n : Nat, ∀ c ∈ fmt02x n, c ∈ lowerHexDigits := by
  intro n c hc
  simp only [fmt02x] at hc
  split at hc
  · rcases List.mem_cons.1 hc with rfl | h1
    · decide
    · exact toHexAux_chars _ _ _ h1
  · exact toHexAux_chars _ _ _ hc

/-- The hex expansion of a value below 16 with positive fuel is one digit. -/
theorem toHexAux_small {fuel n : Nat} (h : n < 16) :
    toHexAux (fuel + 1) n = [hexDigitChar n] := by
  simp [toHexAux, h]

/-- Unfolding of the hex expansion at positive fuel. -/
theorem toHexAux_succ (fuel n : Nat) :
    toHexAux (fuel + 1) n =
      if n < 16 then [hexDigitChar n]
      else toHexAux fuel (n / 16) ++ [hexDigitChar (n % 16)] := rfl

/-- The 02x formatting of a byte value is exactly two characters. -/
theorem fmt02x_len_two {n : Nat} (h : n ≤ 255) : (fmt02x n).length = 2 := by
  by_cases h16 : n < 16
  · simp [fmt02x, toHexAux_small h16]
  · have hdiv : n / 16 < 16 := by omega
    have e1 : toHexAux (n + 1) n = toHexAux n (n / 16) ++ [hexDigitChar (n % 16)] := by
      rw [toHexAux_succ, if_neg h16]
    have e2 : toHexAux n (n / 16) = [hexDigitChar (n / 16)] := by
      obtain ⟨m, rfl⟩ : ∃ m, n = m + 1 := ⟨n - 1, by omega⟩
      exact toHexAux_small hdiv
    simp only [fmt02x, e1, e2]
    simp

/-- Containment in a character list agrees with membership. -/
theorem char_contains_iff {l : List Char} {c : Char} : l.contains c = true ↔ c ∈ l :=
  List.elem_iff

/-- Reduction of the lowercase color test on an explicit cons. -/
theorem isLowerHexColor_mk_cons (c : Char) (rest : List Char) :
    isLowerHexColor (String.mk (c :: rest)) =
      (c == '#' && rest.length == 6 && rest.all (lowerHexDigits.contains ·)) := rfl

/-- Reduction of the validity regex on an explicit cons. -/
theorem isValidSixHex_mk_cons (c : Char) (rest : List Char) :
    isValidSixHex (String.mk (c :: rest)) =
      (c == '#' && rest.length == 6 && rest.all (hexDigitsAnyCase.contains ·)) := rfl

/-- A formatted color whose digit part has length six matches the
lowercase pattern. -/
theorem isLowerHexColor_fmtColor_of_len {r g b : Nat}
    (h6 : (fmt02x r ++ fmt02x g ++ fmt02x b).length = 6) :
    isLowerHexColor (fmtColor r g b) = true := by
  have hall : (fmt02x r ++ fmt02x g ++ fmt02x b).all (lowerHexDigits.contains ·) = true := by
    rw [List.all_eq_true]
    intro c hc
    refine char_contains_iff.2 ?_
    rcases List.mem_append.1 hc with h1 | h1
    · rcases List.mem_append.1 h1 with h2 | h2
      · exact fmt02x_chars _ _ h2
      · exact fmt02x_chars _ _ h2
    · exact fmt02x_chars _ _ h1
  calc isLowerHexColor (fmtColor r g b)
      = (( '#' : Char) == '#' && (fmt02x r ++ fmt02x g ++ fmt02x b).length == 6
          && (fmt02x r ++ fmt02x g ++ fmt02x b).all (lowerHexDigits.contains ·)) :=
        isLowerHexColor_mk_cons '#' _
    _ = true := by rw [h6, hall]; decide

/-- A formatted color of byte values matches the lowercase pattern. -/
theorem isLowerHexColor_fmtColor {r g b : Nat} (hr : r ≤ 255) (hg : g ≤ 255) (hb : b ≤ 255) :
    isLowerHexColor (fmtColor r g b) = true :=
  isLowerHexColor_fmtColor_of_len
    (by simp [List.length_append, fmt02x_len_two hr, fmt02x_len_two hg, fmt02x_len_two hb])

/-- A formatted color that passes the validity regex matches the
lowercase pattern (the formatter only emits lowercase digits). -/
theorem fmtColor_valid_lower {r g b : Nat}
    (h : isValidSixHex (fmtColor r g b) = true) : isLowerHexColor (fmtColor r g b) = true := by
  apply isLowerHexColor_fmtColor_of_len
  have h' : (( '#' : Char) == '#' && (fmt02x r ++ fmt02x g ++ fmt02x b).length == 6
      && (fmt02x r ++ fmt02x g ++ fmt02x b).all (hexDigitsAnyCase.contains ·)) = true := h
  simp only [Bool.and_eq_true, beq_iff_eq] at h'
  exact h'.1.2

/-- The clamp is bounded by 255. -/
theorem pyClamp_le (n : Nat) : pyClamp n ≤ 255 := by
  simp only [pyClamp]
  omega

/-- A successful rgb_to_hex conversion matches the lowercase pattern. -/
theorem rgb_to_hex_some_lower {s out : String} (h : rgb_to_hex s = some out) :
    isLowerHexColor out = true := by
  unfold rgb_to_hex at h
  split at h
  · exact absurd h (by simp)
  · split at h
    · rename_i r g b rest heq
      have hout := Option.some.inj h
      rw [← hout]
      exact isLowerHexColor_fmtColor (pyClamp_le _) (pyClamp_le _) (pyClamp_le _)
    · exact absurd h (by simp)

/-- Every member of the valid color set matches the lowercase pattern. -/
theorem validHexList_lower {inp : ColorInputs} {c : String}
    (h : c ∈ validHexList inp) : isLowerHexColor c = true := by
  rw [validHexList, mem_firstOccurrences] at h
  rcases List.mem_filter.1 h with ⟨hmem, hvalid⟩
  rcases List.mem_append.1 hmem with h1 | h1
  · rcases List.mem_append.1 h1 with h2 | h2
    · rcases List.mem_map.1 h2 with ⟨t, _, rfl⟩
      exact fmtColor_valid_lower hvalid
    · rcases List.mem_filterMap.1 h2 with ⟨raw, _, hconv⟩
      exact rgb_to_hex_some_lower hconv
  · rcases List.mem_filterMap.1 h1 with ⟨raw, _, hconv⟩
    exact rgb_to_hex_some_lower hconv

/-- The valid color set has no duplicates. -/
theorem validHexList_nodup (inp : ColorInputs) : (validHexList inp).Nodup :=
  nodup_firstOccurrences _

/-- Lowercasing fixes a lowercase hex digit. -/
theorem toLowerChar_fix_of_mem {c : Char} (h : c ∈ lowerHexDigits) : toLowerChar c = c := by
  fin_cases h <;> decide

/-- Lowercasing fixes a string matching the lowercase pattern. -/
theorem lowerStr_fix {s : String} (h : isLowerHexColor s = true) : lowerStr s = s := by
  cases s with
  | mk data =>
    cases data with
    | nil => exact absurd h (by decide)
    | cons c rest =>
      have h' : (c == '#' && rest.length == 6 && rest.all (lowerHexDigits.contains ·)) = true := h
      simp only [Bool.and_eq_true, beq_iff_eq, List.all_eq_true] at h'
      obtain ⟨⟨hc, _⟩, hall⟩ := h'
      subst hc
      show String.mk (( '#' :: rest).map toLowerChar) = String.mk ( '#' :: rest)
      congr 1
      simp only [List.map_cons, List.cons.injEq]
      constructor
      · decide
      · have hrw : ∀ a ∈ rest, toLowerChar a = a := fun a ha =>
          toLowerChar_fix_of_mem (char_contains_iff.1 (hall a ha))
        calc rest.map toLowerChar = rest.map id := List.map_congr_left hrw
          _ = rest := List.map_id rest

/-- Background and text colors always match the lowercase pattern. -/
theorem resolveBgText_lower (bc : Option (String × String)) :
    isLowerHexColor (resolveBgText bc).1 = true ∧ isLowerHexColor (resolveBgText bc).2 = true := by
  cases bc with
  | none => exact ⟨by decide, by decide⟩
  | some p =>
    obtain ⟨bgRaw, txtRaw⟩ := p
    constructor
    · simp only [resolveBgText]
      rcases hb : rgb_to_hex bgRaw with _ | out
      · simp only [Option.getD_none]
        decide
      · simp only [Option.getD_some]
        exact rgb_to_hex_some_lower hb
    · simp only [resolveBgText]
      rcases ht : rgb_to_hex txtRaw with _ | out
      · simp only [Option.getD_none]
        decide
      · simp only [Option.getD_some]
        exact rgb_to_hex_some_lower ht

/-- A headD is either a member or the default. -/
theorem headD_mem_or {α : Type} (l : List α) (d : α) : l.headD d ∈ l ∨ l.headD d = d := by
  cases l with
  | nil => exact Or.inr rfl
  | cons x xs => exact Or.inl (List.mem_cons_self x xs)

/-- The picked primary is a member of a non-empty enumeration. -/
theorem pickPrimary_mem {l : List String} {bg txt : String} (h : 0 < l.length) :
    pickPrimary l bg txt ∈ l := by
  rcases headD_mem_or (potentialPrimaries l bg txt) (l.getD 0 "") with hm | he
  · exact (List.mem_filter.1 hm).1
  · show (potentialPrimaries l bg txt).headD (l.getD 0 "") ∈ l
    rw [he]
    exact getD_mem _ h

/-- The picked secondary is a member or aliases the primary. -/
theorem pickSecondary_source (l : List String) (bg txt p : String) :
    pickSecondary l bg txt p ∈ l ∨ pickSecondary l bg txt p = p := by
  rcases headD_mem_or (potentialSecondaries l bg txt p)
      (if 1 < l.length then l.getD 1 "" else p) with hm | he
  · exact Or.inl (List.mem_filter.1 hm).1
  · show (potentialSecondaries l bg txt p).headD (if 1 < l.length then l.getD 1 "" else p) ∈ l
      ∨ (potentialSecondaries l bg txt p).headD (if 1 < l.length then l.getD 1 "" else p) = p
    rw [he]
    split_ifs with hlen
    · exact Or.inl (getD_mem _ hlen)
    · exact Or.inr rfl

/-- The picked accent is a member or aliases the secondary. -/
theorem pickAccent_source (l : List String) (bg txt p s : String) :
    pickAccent l bg txt p s ∈ l ∨ pickAccent l bg txt p s = s := by
  rcases headD_mem_or (potentialAccents l bg txt p s)
      (if 2 < l.length then l.getD 2 "" else s) with hm | he
  · exact Or.inl (List.mem_filter.1 hm).1
  · show (potentialAccents l bg txt p s).headD (if 2 < l.length then l.getD 2 "" else s) ∈ l
      ∨ (potentialAccents l bg txt p s).headD (if 2 < l.length then l.getD 2 "" else s) = s
    rw [he]
    split_ifs with hlen
    · exact Or.inl (getD_mem _ hlen)
    · exact Or.inr rfl

/-- Every assigned role comes from the enumeration, the background, the
text color, or an absolute default. -/
theorem assignRoles_source (e : List String) (bg txt : String) :
    roleSource e bg txt (assignRoles e bg txt).1 ∧
    roleSource e bg txt (assignRoles e bg txt).2.1 ∧
    roleSource e bg txt (assignRoles e bg txt).2.2 := by
  have hsub : ∀ i, i < (nonGrayCandidates e bg txt).length →
      (nonGrayCandidates e bg txt).getD i "" ∈ e := fun i hi =>
    (List.mem_filter.1 (getD_mem _ hi)).1
  unfold assignRoles
  split_ifs with h1 h2 h3 h4 h5
  · exact ⟨Or.inl (hsub 0 (by omega)), Or.inl (hsub 1 (by omega)), Or.inl (hsub 2 (by omega))⟩
  · have hp : pickPrimary e bg txt ∈ e := pickPrimary_mem (by omega)
    have hs := pickSecondary_source e bg txt (pickPrimary e bg txt)
    have ha := pickAccent_source e bg txt (pickPrimary e bg txt)
      (pickSecondary e bg txt (pickPrimary e bg txt))
    refine ⟨Or.inl hp, ?_, ?_⟩
    · rcases hs with h | h
      · exact Or.inl h
      · rw [h]; exact Or.inl hp
    · rcases ha with h | h
      · exact Or.inl h
      · rw [h]
        rcases hs with hx | hx
        · exact Or.inl hx
        · rw [hx]; exact Or.inl hp
  · exact ⟨Or.inl (getD_mem _ (by omega)), Or.inl (getD_mem _ (by omega)),
      Or.inl (getD_mem _ (by omega))⟩
  · refine ⟨Or.inl (getD_mem _ (by omega)), Or.inr (Or.inr (Or.inl rfl)),
      Or.inl (getD_mem _ (by omega))⟩
  · refine ⟨Or.inl (getD_mem _ (by omega)), Or.inr (Or.inl rfl),
      Or.inl (getD_mem _ (by omega))⟩
  · exact ⟨Or.inr (Or.inr (Or.inr (Or.inl rfl))),
      Or.inr (Or.inr (Or.inr (Or.inr (Or.inl rfl)))),
      Or.inr (Or.inr (Or.inr (Or.inr (Or.inr rfl))))⟩

/-- The role assignment on an empty enumeration yields the absolute
defaults. -/
theorem assignRoles_nil (bg txt : String) :
    assignRoles [] bg txt = ("#0000ff", "#d3d3d3", "#ffa500") := rfl

/-- Membership in the final keyword list agrees with membership in the
raw keyword list. -/
theorem mem_style_keywords_iff (colors : ColorScheme) (typ : Typography) (lay : LayoutInfo)
    (comp : ComponentsInfo) (imgs : ImagesInfo) (x : String) :
    x ∈ style_keywords colors typ lay comp imgs ↔ x ∈ styleKeywordsRaw colors typ lay comp imgs := by
  rw [style_keywords, (pySorted_perm _).mem_iff, mem_firstOccurrences]

/-- The palette segment takes one of three values. -/
theorem paletteSeg_cases (palette : List String) :
    paletteSeg palette = ["high-contrast"] ∨ paletteSeg palette = ["limited-palette"]
      ∨ paletteSeg palette = [] := by
  unfold paletteSeg
  split_ifs <;> simp

/-- The icon segment takes one of three values. -/
theorem iconSeg_cases (b1 b2 : Bool) :
    (if b1 then ["svg-icons"] else if b2 then ["icon-font"] else []) = ["svg-icons"]
      ∨ (if b1 then ["svg-icons"] else if b2 then ["icon-font"] else []) = ["icon-font"]
      ∨ (if b1 then ["svg-icons"] else if b2 then ["icon-font"] else []) = ([] : List String) := by
  cases b1 <;> cases b2 <;> simp

/-- The raw keyword list is an instance of the keyword shape. -/
theorem styleKeywordsRaw_shape (colors : ColorScheme) (typ : Typography) (lay : LayoutInfo)
    (comp : ComponentsInfo) (imgs : ImagesInfo) :
    styleKeywordsRaw colors typ lay comp imgs =
      keywordShape (paletteSeg colors.palette)
        (radiusIsRounding comp.buttons_border_radius || radiusIsRounding comp.cards_border_radius
          || radiusIsRounding imgs.image_border_radius)
        (truthyStr comp.cards_box_shadow || truthyStr imgs.image_box_shadow
          || truthyStr comp.nav_box_shadow)
        (isSerifFont (pickHeadingFontLower typ))
        lay.has_grid_system
        (containerTruthy lay.container_width)
        (if imgs.has_svg_icons then ["svg-icons"]
         else if imgs.has_icon_font then ["icon-font"] else []) := rfl

/-- Exactly one keyword of each pair occurs in any keyword shape. -/
theorem keywordShape_pairs (s1 : List String) (b2 b3 b4 b5 b6 : Bool) (s7 : List String)
    (h1 : s1 = ["high-contrast"] ∨ s1 = ["limited-palette"] ∨ s1 = [])
    (h7 : s7 = ["svg-icons"] ∨ s7 = ["icon-font"] ∨ s7 = ([] : List String)) :
    exactlyOne "rounded-corners" "sharp-corners" (keywordShape s1 b2 b3 b4 b5 b6 s7) ∧
    exactlyOne "uses-shadows" "flat-design" (keywordShape s1 b2 b3 b4 b5 b6 s7) ∧
    exactlyOne "serif-typography" "sans-serif-typography" (keywordShape s1 b2 b3 b4 b5 b6 s7) ∧
    exactlyOne "contained-width" "full-width-layout" (keywordShape s1 b2 b3 b4 b5 b6 s7) := by
  rcases h1 with rfl | rfl | rfl <;> rcases h7 with rfl | rfl | rfl <;>
    cases b2 <;> cases b3 <;> cases b4 <;> cases b5 <;> cases b6 <;> decide

/-- The limited-palette keyword cannot arise from an empty palette
segment. -/
theorem keywordShape_no_limited (b2 b3 b4 b5 b6 : Bool) (s7 : List String)
    (h7 : s7 = ["svg-icons"] ∨ s7 = ["icon-font"] ∨ s7 = ([] : List String)) :
    "limited-palette" ∉ keywordShape [] b2 b3 b4 b5 b6 s7 := by
  rcases h7 with rfl | rfl | rfl <;>
    cases b2 <;> cases b3 <;> cases b4 <;> cases b5 <;> cases b6 <;> decide

/-- Membership respects pointwise-equivalent lists for pair
exclusivity. -/
theorem exactlyOne_congr {a b : String} {l1 l2 : List String}
    (h : ∀ x, x ∈ l1 ↔ x ∈ l2) : exactlyOne a b l2 → exactlyOne a b l1 := by
  rintro (⟨ha, hb⟩ | ⟨hb, ha⟩)
  · exact Or.inl ⟨(h a).2 ha, fun hc => hb ((h b).1 hc)⟩
  · exact Or.inr ⟨(h b).2 hb, fun hc => ha ((h a).1 hc)⟩

/-- The head surviving a dropWhile fails the predicate. -/
theorem dropWhile_head_not {p : Char → Bool} :
    ∀ (l : List Char) {c : Char}, (l.dropWhile p).head? = some c → p c = false := by
  intro l
  induction l with
  | nil => intro c h; simp [List.dropWhile] at h
  | cons a t ih =>
    intro c h
    by_cases hp : p a
    · rw [show (a :: t).dropWhile p = t.dropWhile p from by simp [List.dropWhile, hp]] at h
      exact ih h
    · rw [show (a :: t).dropWhile p = a :: t from by simp [List.dropWhile, hp]] at h
      simp only [List.head?_cons, Option.some.injEq] at h
      rw [← h]
      exact Bool.of_not_eq_true hp

/-- A dropWhile is empty or keeps the last element. -/
theorem dropWhile_getLast?_eq {p : Char → Bool} :
    ∀ l : List Char, l.dropWhile p = [] ∨ (l.dropWhile p).getLast? = l.getLast? := by
  intro l
  induction l with
  | nil => left; rfl
  | cons a t ih =>
    by_cases hp : p a
    · rw [show (a :: t).dropWhile p = t.dropWhile p from by simp [List.dropWhile, hp]]
      rcases ih with h | h
      · left; exact h
      · cases t with
        | nil => left; rfl
        | cons b t2 =>
          right
          rw [h]
          exact (List.getLast?_cons_cons).symm
    · right
      rw [show (a :: t).dropWhile p = a :: t from by simp [List.dropWhile, hp]]

/-- Quote stripping leaves no surrounding quote characters. -/
theorem noSurroundingQuotes_stripQuotes (s : String) :
    noSurroundingQuotes (stripQuotes s) = true := by
  have hdata : (stripQuotes s).data
      = ((s.data.dropWhile isQuoteChar).reverse.dropWhile isQuoteChar).reverse := rfl
  unfold noSurroundingQuotes
  rw [hdata, List.head?_reverse, List.getLast?_reverse]
  rw [Bool.and_eq_true]
  constructor
  · rcases dropWhile_getLast?_eq ((s.data.dropWhile isQuoteChar).reverse) with h | h
    · rw [h]; rfl
    · rw [h, List.getLast?_reverse]
      rcases hh : (s.data.dropWhile isQuoteChar).head? with _ | c
      · rfl
      · have hq := dropWhile_head_not s.data hh
        simp [hq]
  · rcases hh : ((s.data.dropWhile isQuoteChar).reverse.dropWhile isQuoteChar).head? with _ | c
    · rfl
    · have hq := dropWhile_head_not _ hh
      simp [hq]

/-- A heading descriptor is produced exactly when family, size and
weight are all truthy. -/
theorem extract_typography_heading_isSome (fam siz wei : Option String) :
    (extract_typography_heading fam siz wei).isSome = true ↔
      truthyStr fam = true ∧ truthyStr siz = true ∧ truthyStr wei = true := by
  rcases fam with _ | f <;> rcases siz with _ | s <;> rcases wei with _ | w <;>
    simp only [extract_typography_heading, truthyStr, Option.isSome_none, Option.isSome_some] <;>
    try simp
  exact and_assoc

/-- A produced heading descriptor has a quote-stripped family. -/
theorem extract_typography_heading_quotes {fam siz wei : Option String} {d : HeadingDescriptor}
    (h : extract_typography_heading fam siz wei = some d) :
    noSurroundingQuotes d.font_family = true := by
  rcases fam with _ | f <;> rcases siz with _ | s <;> rcases wei with _ | w <;>
    simp [extract_typography_heading] at h
  obtain ⟨hc, hd⟩ := h
  rw [← hd]
  exact noSurroundingQuotes_stripQuotes f

/-- A falsy computed value is replaced by its default. -/
theorem defaultIfFalsy_of_falsy {x : Option String} {dflt : String} {f : String → String}
    (h : truthyStr x = false) : defaultIfFalsy x dflt f = dflt := by
  rcases x with _ | s
  · rfl
  · simp only [truthyStr, Bool.not_eq_false'] at h
    simp [defaultIfFalsy, h]

/-- A default or quote-stripped body family has no surrounding
quotes. -/
theorem defaultIfFalsy_family_quotes (x : Option String) :
    noSurroundingQuotes (defaultIfFalsy x "sans-serif" stripQuotes) = true := by
  rcases x with _ | s
  · decide
  · simp only [defaultIfFalsy]
    split_ifs
    · decide
    · exact noSurroundingQuotes_stripQuotes s

/-- C1 counterexample: on identical raw inputs (three CSS rgb values,
nothing else) the valid color set is the same, yet two possible
enumerations of that Python set give different primary colors, so the
role assignment is not a function of the raw inputs alone. -/
theorem C1_counterexample :
    enumNondet.Perm (validHexList inputsNondet) ∧
    (extract_color_palette inputsNondet (validHexList inputsNondet)).primary_color = "#ff0001" ∧
    (extract_color_palette inputsNondet enumNondet).primary_color = "#ff0002" := by
  decide

/-- C1 amended: the background color, text color and emitted palette of
extract_color_palette are deterministic in the raw inputs — they do not
depend on which enumeration of the valid color set the Python set
iteration produces; only the primary/secondary/accent selection does. -/
theorem C1_amended_determinism (inp : ColorInputs) (e1 e2 : List String) (h : e1.Perm e2) :
    (extract_color_palette inp e1).background_color
      = (extract_color_palette inp e2).background_color ∧
    (extract_color_palette inp e1).text_color = (extract_color_palette inp e2).text_color ∧
    (extract_color_palette inp e1).palette = (extract_color_palette inp e2).palette := by
  refine ⟨rfl, rfl, ?_⟩
  show (pySorted e1).take 15 = (pySorted e2).take 15
  rw [pySorted_eq_of_perm h]

/-- C1 witness: the amended determinism applied to the two concrete
enumerations of the counterexample run. -/
theorem C1_amended_determinism_witness :
    (extract_color_palette inputsNondet (validHexList inputsNondet)).palette
      = (extract_color_palette inputsNondet enumNondet).palette :=
  (C1_amended_determinism inputsNondet (validHexList inputsNondet) enumNondet (by decide)).2.2

/-- C2 counterexample: the first-discovery order of the valid colors is
red then green, but the emitted palette is sorted ascending, so the
palette does not preserve insertion order. -/
theorem C2_counterexample :
    validHexList inputsSortDemo = ["#ff0000", "#00ff00"] ∧
    (extract_color_palette inputsSortDemo (validHexList inputsSortDemo)).palette
      = ["#00ff00", "#ff0000"] ∧
    (extract_color_palette inputsSortDemo (validHexList inputsSortDemo)).palette
      ≠ validHexList inputsSortDemo := by
  decide

/-- C2 amended: the emitted palette is lexicographically sorted (then
truncated to 15) rather than insertion-ordered, its entries all come
from the valid color set, and within every filtered candidate set the
selection of primary, secondary and accent is the first entry in the
set-enumeration order, not the first-discovery order: in the non-gray
tier the three roles are the first three non-gray candidates, and in
the fallback tier each of the three filters contributes its head. -/
theorem C2_amended_sorted_palette (inp : ColorInputs) (e : List String)
    (h : e.Perm (validHexList inp)) :
    List.Sorted sLE (extract_color_palette inp e).palette ∧
    (∀ c ∈ (extract_color_palette inp e).palette, c ∈ validHexList inp) ∧
    (3 ≤ (nonGrayCandidates e (resolveBgText inp.bodyColors).1
        (resolveBgText inp.bodyColors).2).length →
      (extract_color_palette inp e).primary_color =
        (nonGrayCandidates e (resolveBgText inp.bodyColors).1
          (resolveBgText inp.bodyColors).2).getD 0 "" ∧
      (extract_color_palette inp e).secondary_color =
        (nonGrayCandidates e (resolveBgText inp.bodyColors).1
          (resolveBgText inp.bodyColors).2).getD 1 "" ∧
      (extract_color_palette inp e).accent_color =
        (nonGrayCandidates e (resolveBgText inp.bodyColors).1
          (resolveBgText inp.bodyColors).2).getD 2 "") ∧
    ((nonGrayCandidates e (resolveBgText inp.bodyColors).1
        (resolveBgText inp.bodyColors).2).length < 3 → 3 ≤ e.length →
      (∀ p ps, potentialPrimaries e (resolveBgText inp.bodyColors).1
          (resolveBgText inp.bodyColors).2 = p :: ps →
        (extract_color_palette inp e).primary_color = p) ∧
      (∀ s ss, potentialSecondaries e (resolveBgText inp.bodyColors).1
          (resolveBgText inp.bodyColors).2
          (extract_color_palette inp e).primary_color = s :: ss →
        (extract_color_palette inp e).secondary_color = s) ∧
      (∀ a as, potentialAccents e (resolveBgText inp.bodyColors).1
          (resolveBgText inp.bodyColors).2
          (extract_color_palette inp e).primary_color
          (extract_color_palette inp e).secondary_color = a :: as →
        (extract_color_palette inp e).accent_color = a)) := by
  refine ⟨?_, ?_, ?_, ?_⟩
  · show List.Sorted sLE ((pySorted e).take 15)
    exact List.Pairwise.sublist (List.take_sublist _ _) (pySorted_sorted e)
  · intro c hc
    exact (h.mem_iff).1 ((pySorted_perm e).mem_iff.1 (List.mem_of_mem_take hc))
  · intro h3
    refine ⟨?_, ?_, ?_⟩
    · show (assignRoles e (resolveBgText inp.bodyColors).1 (resolveBgText inp.bodyColors).2).1 = _
      unfold assignRoles
      rw [if_pos h3]
    · show (assignRoles e (resolveBgText inp.bodyColors).1
          (resolveBgText inp.bodyColors).2).2.1 = _
      unfold assignRoles
      rw [if_pos h3]
    · show (assignRoles e (resolveBgText inp.bodyColors).1
          (resolveBgText inp.bodyColors).2).2.2 = _
      unfold assignRoles
      rw [if_pos h3]
  · intro hlt h3
    have hne : ¬ 3 ≤ (nonGrayCandidates e (resolveBgText inp.bodyColors).1
        (resolveBgText inp.bodyColors).2).length := by omega
    have hpr : (extract_color_palette inp e).primary_color
        = pickPrimary e (resolveBgText inp.bodyColors).1 (resolveBgText inp.bodyColors).2 := by
      show (assignRoles e (resolveBgText inp.bodyColors).1 (resolveBgText inp.bodyColors).2).1 = _
      unfold assignRoles
      rw [if_neg hne, if_pos h3]
    have hse : (extract_color_palette inp e).secondary_color
        = pickSecondary e (resolveBgText inp.bodyColors).1 (resolveBgText inp.bodyColors).2
          (pickPrimary e (resolveBgText inp.bodyColors).1 (resolveBgText inp.bodyColors).2) := by
      show (assignRoles e (resolveBgText inp.bodyColors).1
          (resolveBgText inp.bodyColors).2).2.1 = _
      unfold assignRoles
      rw [if_neg hne, if_pos h3]
    have hac : (extract_color_palette inp e).accent_color
        = pickAccent e (resolveBgText inp.bodyColors).1 (resolveBgText inp.bodyColors).2
          (pickPrimary e (resolveBgText inp.bodyColors).1 (resolveBgText inp.bodyColors).2)
          (pickSecondary e (resolveBgText inp.bodyColors).1 (resolveBgText inp.bodyColors).2
            (pickPrimary e (resolveBgText inp.bodyColors).1
              (resolveBgText inp.bodyColors).2)) := by
      show (assignRoles e (resolveBgText inp.bodyColors).1
          (resolveBgText inp.bodyColors).2).2.2 = _
      unfold assignRoles
      rw [if_neg hne, if_pos h3]
    refine ⟨?_, ?_, ?_⟩
    · intro p ps hp
      rw [hpr]
      show (potentialPrimaries e (resolveBgText inp.bodyColors).1
          (resolveBgText inp.bodyColors).2).headD (e.getD 0 "") = p
      rw [hp, List.headD_cons]
    · intro s ss hs
      rw [hpr] at hs
      rw [hse]
      show (potentialSecondaries e (resolveBgText inp.bodyColors).1
          (resolveBgText inp.bodyColors).2
          (pickPrimary e (resolveBgText inp.bodyColors).1
            (resolveBgText inp.bodyColors).2)).headD
        (if 1 < e.length then e.getD 1 "" else pickPrimary e (resolveBgText inp.bodyColors).1
          (resolveBgText inp.bodyColors).2) = s
      rw [hs, List.headD_cons]
    · intro a as ha
      rw [hpr, hse] at ha
      rw [hac]
      show (potentialAccents e (resolveBgText inp.bodyColors).1
          (resolveBgText inp.bodyColors).2
          (pickPrimary e (resolveBgText inp.bodyColors).1 (resolveBgText inp.bodyColors).2)
          (pickSecondary e (resolveBgText inp.bodyColors).1 (resolveBgText inp.bodyColors).2
            (pickPrimary e (resolveBgText inp.bodyColors).1
              (resolveBgText inp.bodyColors).2))).headD
        (if 2 < e.length then e.getD 2 ""
         else pickSecondary e (resolveBgText inp.bodyColors).1 (resolveBgText inp.bodyColors).2
           (pickPrimary e (resolveBgText inp.bodyColors).1
             (resolveBgText inp.bodyColors).2)) = a
      rw [ha, List.headD_cons]

/-- C2 witness: the amended palette facts at the concrete
nondeterminism run, the full role triple of the non-gray tier, and the
three fallback-tier filter heads at a concrete one-non-gray run. -/
theorem C2_amended_sorted_palette_witness :
    (List.Sorted sLE (extract_color_palette inputsNondet (validHexList inputsNondet)).palette ∧
     (∀ c ∈ (extract_color_palette inputsNondet (validHexList inputsNondet)).palette,
       c ∈ validHexList inputsNondet) ∧
     ((extract_color_palette inputsNondet (validHexList inputsNondet)).primary_color =
        (nonGrayCandidates (validHexList inputsNondet)
          (resolveBgText inputsNondet.bodyColors).1
          (resolveBgText inputsNondet.bodyColors).2).getD 0 "" ∧
      (extract_color_palette inputsNondet (validHexList inputsNondet)).secondary_color =
        (nonGrayCandidates (validHexList inputsNondet)
          (resolveBgText inputsNondet.bodyColors).1
          (resolveBgText inputsNondet.bodyColors).2).getD 1 "" ∧
      (extract_color_palette inputsNondet (validHexList inputsNondet)).accent_color =
        (nonGrayCandidates (validHexList inputsNondet)
          (resolveBgText inputsNondet.bodyColors).1
          (resolveBgText inputsNondet.bodyColors).2).getD 2 "")) ∧
    (extract_color_palette inputsFallback (validHexList inputsFallback)).primary_color
      = "#ff0001" ∧
    (extract_color_palette inputsFallback (validHexList inputsFallback)).secondary_color
      = "#0a0a0a" ∧
    (extract_color_palette inputsFallback (validHexList inputsFallback)).accent_color
      = "#141414" := by
  have hmain := C2_amended_sorted_palette inputsNondet (validHexList inputsNondet)
    (List.Perm.refl _)
  have hfall := C2_amended_sorted_palette inputsFallback (validHexList inputsFallback)
    (List.Perm.refl _)
  have hfb := hfall.2.2.2 (by decide) (by decide)
  refine ⟨⟨hmain.1, hmain.2.1, hmain.2.2.1 (by decide)⟩, ?_, ?_, ?_⟩
  · exact hfb.1 "#ff0001" ["#0a0a0a", "#141414"] (by decide)
  · exact hfb.2.1 "#0a0a0a" ["#141414"] (by decide)
  · exact hfb.2.2 "#141414" [] (by decide)

/-- C3 counterexample: with zero detected colors the role defaults and
the empty palette hold, but the style keywords do not include
limited-palette, because the keyword rule is guarded by palette
truthiness and an empty palette is falsy. -/
theorem C3_counterexample :
    (extract_color_palette zeroInputs (validHexList zeroInputs)).primary_color = "#0000ff" ∧
    (extract_color_palette zeroInputs (validHexList zeroInputs)).secondary_color = "#d3d3d3" ∧
    (extract_color_palette zeroInputs (validHexList zeroInputs)).accent_color = "#ffa500" ∧
    (extract_color_palette zeroInputs (validHexList zeroInputs)).palette = [] ∧
    "limited-palette" ∉ (generate_design_schema "https://example.com"
      (extract_color_palette zeroInputs (validHexList zeroInputs))
      typEmpty layEmpty compEmpty imgsEmpty).style_keywords := by
  decide

/-- C3 amended: when zero valid colors are detected the schema has the
three default role colors and an empty palette, and the style keywords
never include limited-palette (the size rule only fires for non-empty
palettes of size at most 4). -/
theorem C3_amended_zero_colors (inp : ColorInputs) (e : List String) (url : String)
    (typ : Typography) (lay : LayoutInfo) (comp : ComponentsInfo) (imgs : ImagesInfo)
    (h0 : validHexList inp = []) (hperm : e.Perm (validHexList inp)) :
    (extract_color_palette inp e).primary_color = "#0000ff" ∧
    (extract_color_palette inp e).secondary_color = "#d3d3d3" ∧
    (extract_color_palette inp e).accent_color = "#ffa500" ∧
    (extract_color_palette inp e).palette = [] ∧
    "limited-palette" ∉ (generate_design_schema url (extract_color_palette inp e)
      typ lay comp imgs).style_keywords := by
  rw [h0] at hperm
  have he : e = [] := hperm.eq_nil
  subst he
  have hpal : (extract_color_palette inp ([] : List String)).palette = [] := rfl
  refine ⟨rfl, rfl, rfl, hpal, ?_⟩
  intro hmem
  rw [show (generate_design_schema url (extract_color_palette inp []) typ lay comp imgs).style_keywords
      = style_keywords (extract_color_palette inp []) typ lay comp imgs from rfl] at hmem
  rw [mem_style_keywords_iff, styleKeywordsRaw_shape, hpal,
    show paletteSeg ([] : List String) = [] from rfl] at hmem
  exact keywordShape_no_limited _ _ _ _ _ _ (iconSeg_cases _ _) hmem

/-- C3 witness: the amended zero-color behavior at the concrete empty
run. -/
theorem C3_amended_zero_colors_witness :
    (extract_color_palette zeroInputs []).primary_color = "#0000ff" ∧
    (extract_color_palette zeroInputs []).secondary_color = "#d3d3d3" ∧
    (extract_color_palette zeroInputs []).accent_color = "#ffa500" ∧
    (extract_color_palette zeroInputs []).palette = [] ∧
    "limited-palette" ∉ (generate_design_schema "https://example.com"
      (extract_color_palette zeroInputs []) typEmpty layEmpty compEmpty imgsEmpty).style_keywords :=
  C3_amended_zero_colors zeroInputs [] "https://example.com" typEmpty layEmpty compEmpty imgsEmpty
    (by decide) (by decide)

/-- C4 confirmed: every assembled schema's style keywords contain
exactly one member of each of the four alternative pairs, and the list
is sorted in ascending code-point (alphabetical) order. -/
theorem C4_keyword_pairs (url : String) (colors : ColorScheme) (typ : Typography)
    (lay : LayoutInfo) (comp : ComponentsInfo) (imgs : ImagesInfo) :
    exactlyOne "rounded-corners" "sharp-corners"
      (generate_design_schema url colors typ lay comp imgs).style_keywords ∧
    exactlyOne "uses-shadows" "flat-design"
      (generate_design_schema url colors typ lay comp imgs).style_keywords ∧
    exactlyOne "serif-typography" "sans-serif-typography"
      (generate_design_schema url colors typ lay comp imgs).style_keywords ∧
    exactlyOne "contained-width" "full-width-layout"
      (generate_design_schema url colors typ lay comp imgs).style_keywords ∧
    List.Sorted sLE (generate_design_schema url colors typ lay comp imgs).style_keywords := by
  have hiff : ∀ x, x ∈ (generate_design_schema url colors typ lay comp imgs).style_keywords
      ↔ x ∈ keywordShape (paletteSeg colors.palette)
        (radiusIsRounding comp.buttons_border_radius || radiusIsRounding comp.cards_border_radius
          || radiusIsRounding imgs.image_border_radius)
        (truthyStr comp.cards_box_shadow || truthyStr imgs.image_box_shadow
          || truthyStr comp.nav_box_shadow)
        (isSerifFont (pickHeadingFontLower typ)) lay.has_grid_system
        (containerTruthy lay.container_width)
        (if imgs.has_svg_icons then ["svg-icons"]
         else if imgs.has_icon_font then ["icon-font"] else []) := by
    intro x
    rw [show (generate_design_schema url colors typ lay comp imgs).style_keywords
        = style_keywords colors typ lay comp imgs from rfl,
      mem_style_keywords_iff, styleKeywordsRaw_shape]
  have hp := keywordShape_pairs (paletteSeg colors.palette)
    (radiusIsRounding comp.buttons_border_radius || radiusIsRounding comp.cards_border_radius
      || radiusIsRounding imgs.image_border_radius)
    (truthyStr comp.cards_box_shadow || truthyStr imgs.image_box_shadow
      || truthyStr comp.nav_box_shadow)
    (isSerifFont (pickHeadingFontLower typ)) lay.has_grid_system
    (containerTruthy lay.container_width)
    (if imgs.has_svg_icons then ["svg-icons"]
     else if imgs.has_icon_font then ["icon-font"] else [])
    (paletteSeg_cases _) (iconSeg_cases _ _)
  exact ⟨exactlyOne_congr hiff hp.1, exactlyOne_congr hiff hp.2.1,
    exactlyOne_congr hiff hp.2.2.1, exactlyOne_congr hiff hp.2.2.2, pySorted_sorted _⟩

/-- C5 confirmed: for every run whose set enumeration lists the valid
color set, the five role colors and every palette entry match the
lowercase six-hex-digit pattern, the palette has at most 15 entries,
and no two entries coincide case-insensitively. -/
theorem C5_color_validity (inp : ColorInputs) (e : List String)
    (h : e.Perm (validHexList inp)) :
    isLowerHexColor (extract_color_palette inp e).primary_color = true ∧
    isLowerHexColor (extract_color_palette inp e).secondary_color = true ∧
    isLowerHexColor (extract_color_palette inp e).accent_color = true ∧
    isLowerHexColor (extract_color_palette inp e).background_color = true ∧
    isLowerHexColor (extract_color_palette inp e).text_color = true ∧
    (∀ c ∈ (extract_color_palette inp e).palette, isLowerHexColor c = true) ∧
    (extract_color_palette inp e).palette.length ≤ 15 ∧
    List.Pairwise (fun a b => lowerStr a ≠ lowerStr b) (extract_color_palette inp e).palette := by
  have hbg := resolveBgText_lower inp.bodyColors
  have hmem : ∀ c ∈ e, isLowerHexColor c = true := fun c hc =>
    validHexList_lower ((h.mem_iff).1 hc)
  have hsrc := assignRoles_source e (resolveBgText inp.bodyColors).1
    (resolveBgText inp.bodyColors).2
  have hrole : ∀ c, roleSource e (resolveBgText inp.bodyColors).1
      (resolveBgText inp.bodyColors).2 c → isLowerHexColor c = true := by
    intro c hc
    rcases hc with hc | rfl | rfl | rfl | rfl | rfl
    · exact hmem c hc
    · exact hbg.1
    · exact hbg.2
    · decide
    · decide
    · decide
  have hpc : ∀ c ∈ (pySorted e).take 15, isLowerHexColor c = true := fun c hc =>
    hmem c ((pySorted_perm e).mem_iff.1 (List.mem_of_mem_take hc))
  refine ⟨hrole _ hsrc.1, hrole _ hsrc.2.1, hrole _ hsrc.2.2, hbg.1, hbg.2, hpc, ?_, ?_⟩
  · show ((pySorted e).take 15).length ≤ 15
    rw [List.length_take]
    exact inf_le_left
  · have hnd : ((pySorted e).take 15).Nodup :=
      List.Nodup.sublist (List.take_sublist _ _)
        ((pySorted_perm e).nodup_iff.2 ((h.nodup_iff).2 (validHexList_nodup inp)))
    refine List.Pairwise.imp_of_mem ?_ hnd
    intro a b ha hb hne
    rw [lowerStr_fix (hpc a ha), lowerStr_fix (hpc b hb)]
    exact hne

/-- C5 witness: the validity facts evaluated on the concrete two-color
run. -/
theorem C5_color_validity_witness :
    isLowerHexColor (extract_color_palette inputsSortDemo (validHexList inputsSortDemo)).primary_color = true ∧
    isLowerHexColor (extract_color_palette inputsSortDemo (validHexList inputsSortDemo)).secondary_color = true ∧
    isLowerHexColor (extract_color_palette inputsSortDemo (validHexList inputsSortDemo)).accent_color = true ∧
    isLowerHexColor (extract_color_palette inputsSortDemo (validHexList inputsSortDemo)).background_color = true ∧
    isLowerHexColor (extract_color_palette inputsSortDemo (validHexList inputsSortDemo)).text_color = true ∧
    (∀ c ∈ (extract_color_palette inputsSortDemo (validHexList inputsSortDemo)).palette,
      isLowerHexColor c = true) ∧
    (extract_color_palette inputsSortDemo (validHexList inputsSortDemo)).palette.length ≤ 15 ∧
    List.Pairwise (fun a b => lowerStr a ≠ lowerStr b)
      (extract_color_palette inputsSortDemo (validHexList inputsSortDemo)).palette :=
  C5_color_validity inputsSortDemo (validHexList inputsSortDemo) (List.Perm.refl _)

/-- C6 counterexample: when the documentation deriver fails internally
its stored output is the empty string, not null, and when the AI
deriver's deep copy fails its stored output is the unenhanced schema,
not null; the code-snippet deriver still completes alongside the failed
documentation deriver. -/
theorem C6_counterexample :
    (extract_artifacts sampleSchema true true true (some sampleSchema) false true).documentation
      = some "" ∧
    some "" ≠ (none : Option String) ∧
    (extract_artifacts sampleSchema true true true (some sampleSchema) false true).code_snippets
      = some (computeSnippetParams sampleSchema) ∧
    (extract_artifacts sampleSchema true true true none false false).ai_optimized_schema
      = some ⟨sampleSchema, none⟩ := by
  decide

/-- C6 amended: each artifact deriver's stored output depends only on
its own failure outcome, so a failing deriver never prevents the others
from completing; on failure the code-snippet deriver stores null, the
documentation deriver stores the empty string, and the AI deriver
stores the input schema without an ai_consumption section. -/
theorem C6_amended_deriver_isolation (schema : DesignSchema) (aiCopy : Option DesignSchema)
    (codeRaises docRaises : Bool) :
    (extract_artifacts schema true true true aiCopy codeRaises docRaises).code_snippets
      = generate_design_code_snippets schema codeRaises ∧
    (extract_artifacts schema true true true aiCopy codeRaises docRaises).documentation
      = some (generate_documentation schema docRaises) ∧
    (extract_artifacts schema true true true aiCopy codeRaises docRaises).ai_optimized_schema
      = some (optimize_for_ai_consumption schema aiCopy) ∧
    (codeRaises = true →
      (extract_artifacts schema true true true aiCopy codeRaises docRaises).code_snippets = none) ∧
    (docRaises = true →
      (extract_artifacts schema true true true aiCopy codeRaises docRaises).documentation
        = some "") ∧
    (aiCopy = none →
      (extract_artifacts schema true true true aiCopy codeRaises docRaises).ai_optimized_schema
        = some ⟨schema, none⟩) ∧
    (codeRaises = false →
      (extract_artifacts schema true true true aiCopy codeRaises docRaises).code_snippets
        = some (computeSnippetParams schema)) ∧
    (docRaises = false →
      (extract_artifacts schema true true true aiCopy codeRaises docRaises).documentation
        = some (renderDocumentation schema)) := by
  refine ⟨rfl, rfl, rfl, ?_, ?_, ?_, ?_, ?_⟩
  · rintro rfl; rfl
  · rintro rfl; rfl
  · rintro rfl; rfl
  · rintro rfl; rfl
  · rintro rfl; rfl

/-- C6 witness: the failure values of all three derivers at a concrete
run where every deriver fails. -/
theorem C6_amended_deriver_isolation_witness :
    (extract_artifacts sampleSchema true true true none true true).code_snippets = none ∧
    (extract_artifacts sampleSchema true true true none true true).documentation = some "" ∧
    (extract_artifacts sampleSchema true true true none true true).ai_optimized_schema
      = some ⟨sampleSchema, none⟩ :=
  ⟨(C6_amended_deriver_isolation sampleSchema none true true).2.2.2.1 rfl,
   (C6_amended_deriver_isolation sampleSchema none true true).2.2.2.2.1 rfl,
   (C6_amended_deriver_isolation sampleSchema none true true).2.2.2.2.2.1 rfl⟩

/-- C7 confirmed: no spacing samples yields an empty
common_spacing_units list and snippet spacing base 8; a non-empty list
contributes the leading integer of its first value; the radius base is
taken from the button radius, else the card radius, else 4. -/
theorem C7_spacing_radius_defaults (samples : List String) (btn card : Option String)
    (schema : DesignSchema) :
    (samples = [] → common_spacing_units samples = [] ∧
      snippetSpacingBase (common_spacing_units samples) = "8") ∧
    (∀ u rest, common_spacing_units samples = u :: rest →
      snippetSpacingBase (common_spacing_units samples) = (leadingDigits u).getD "8") ∧
    (∀ r, btn = some r → r.isEmpty = false →
      snippetRadiusBase btn card = (leadingDigits r).getD "4") ∧
    (truthyStr btn = false → ∀ r, card = some r → r.isEmpty = false →
      snippetRadiusBase btn card = (leadingDigits r).getD "4") ∧
    (truthyStr btn = false → truthyStr card = false → snippetRadiusBase btn card = "4") ∧
    (schema.layout.common_spacing_units = [] →
      (computeSnippetParams schema).spacing_unit = "8px") := by
  refine ⟨?_, ?_, ?_, ?_, ?_, ?_⟩
  · rintro rfl
    exact ⟨rfl, rfl⟩
  · intro u rest hu
    rw [hu]
    rfl
  · rintro r rfl hne
    simp [snippetRadiusBase, pyOrOpt, hne]
  · intro hb r hc hne
    subst hc
    rcases btn with _ | b
    · simp [snippetRadiusBase, pyOrOpt, hne]
    · have hb2 : b.isEmpty = true := by simpa [truthyStr] using hb
      simp [snippetRadiusBase, pyOrOpt, hb2, hne]
  · intro hb hc
    rcases btn with _ | b <;> rcases card with _ | c
    · rfl
    · have hc2 : c.isEmpty = true := by simpa [truthyStr] using hc
      simp [snippetRadiusBase, pyOrOpt, hc2]
    · have hb2 : b.isEmpty = true := by simpa [truthyStr] using hb
      simp [snippetRadiusBase, pyOrOpt, hb2]
    · have hb2 : b.isEmpty = true := by simpa [truthyStr] using hb
      have hc2 : c.isEmpty = true := by simpa [truthyStr] using hc
      simp [snippetRadiusBase, pyOrOpt, hb2, hc2]
  · intro h
    show snippetSpacingBase schema.layout.common_spacing_units ++ "px" = "8px"
    rw [h]
    rfl

/-- C7 witness: the defaults evaluated on concrete spacing and radius
inputs. -/
theorem C7_spacing_radius_defaults_witness :
    common_spacing_units [] = [] ∧
    snippetSpacingBase (common_spacing_units []) = "8" ∧
    snippetRadiusBase (some "6px") none = "6" ∧
    snippetRadiusBase none none = "4" ∧
    (computeSnippetParams sampleSchema).spacing_unit = "8px" :=
  ⟨(C7_spacing_radius_defaults [] none none sampleSchema).1 rfl |>.1,
   (C7_spacing_radius_defaults [] none none sampleSchema).1 rfl |>.2,
   (C7_spacing_radius_defaults [] (some "6px") none sampleSchema).2.2.1 "6px" rfl (by decide),
   (C7_spacing_radius_defaults [] none none sampleSchema).2.2.2.2.1 rfl rfl,
   (C7_spacing_radius_defaults [] none none sampleSchema).2.2.2.2.2 (by decide)⟩

/-- C8 confirmed: the typography resolver always yields a body
descriptor whose four fields default independently, includes a heading
descriptor exactly when family, size and weight were all obtained, and
emits font families with surrounding quote characters stripped. -/
theorem C8_typography_contract (ti : TypographyInputs) :
    (ti.bodyStyles = none →
      (extract_typography ti).body = ⟨"sans-serif", "16px", "400", "normal"⟩) ∧
    (∀ f s w lh, ti.bodyStyles = some (f, s, w, lh) →
      (truthyStr f = false → (extract_typography ti).body.font_family = "sans-serif") ∧
      (∀ fs, f = some fs → fs.isEmpty = false →
        (extract_typography ti).body.font_family = stripQuotes fs) ∧
      (truthyStr s = false → (extract_typography ti).body.font_size = "16px") ∧
      (∀ ss, s = some ss → ss.isEmpty = false → (extract_typography ti).body.font_size = ss) ∧
      (truthyStr w = false → (extract_typography ti).body.font_weight = "400") ∧
      (∀ ws, w = some ws → ws.isEmpty = false → (extract_typography ti).body.font_weight = ws) ∧
      (truthyStr lh = false → (extract_typography ti).body.line_height = "normal") ∧
      (∀ ls, lh = some ls → ls.isEmpty = false → (extract_typography ti).body.line_height = ls)) ∧
    (∀ fam siz wei, (extract_typography_heading fam siz wei).isSome = true ↔
      truthyStr fam = true ∧ truthyStr siz = true ∧ truthyStr wei = true) ∧
    ((extract_typography ti).h1
      = ti.h1.bind (fun t => extract_typography_heading t.1 t.2.1 t.2.2) ∧
     (extract_typography ti).h2
      = ti.h2.bind (fun t => extract_typography_heading t.1 t.2.1 t.2.2) ∧
     (extract_typography ti).h3
      = ti.h3.bind (fun t => extract_typography_heading t.1 t.2.1 t.2.2) ∧
     (extract_typography ti).h4
      = ti.h4.bind (fun t => extract_typography_heading t.1 t.2.1 t.2.2) ∧
     (extract_typography ti).h5
      = ti.h5.bind (fun t => extract_typography_heading t.1 t.2.1 t.2.2) ∧
     (extract_typography ti).h6
      = ti.h6.bind (fun t => extract_typography_heading t.1 t.2.1 t.2.2)) ∧
    noSurroundingQuotes (extract_typography ti).body.font_family = true ∧
    (∀ d : HeadingDescriptor,
      ((extract_typography ti).h1 = some d ∨ (extract_typography ti).h2 = some d ∨
       (extract_typography ti).h3 = some d ∨ (extract_typography ti).h4 = some d ∨
       (extract_typography ti).h5 = some d ∨ (extract_typography ti).h6 = some d) →
      noSurroundingQuotes d.font_family = true) := by
  have hlev : ∀ (o : Option (Option String × Option String × Option String))
      (d : HeadingDescriptor),
      o.bind (fun t => extract_typography_heading t.1 t.2.1 t.2.2) = some d →
      noSurroundingQuotes d.font_family = true := by
    intro o d ho
    rcases o with _ | t
    · exact absurd ho (by simp)
    · exact extract_typography_heading_quotes ho
  refine ⟨?_, ?_, extract_typography_heading_isSome, ⟨rfl, rfl, rfl, rfl, rfl, rfl⟩, ?_, ?_⟩
  · intro hb
    simp [extract_typography, hb]
  · intro f s w lh hb
    have hbd : (extract_typography ti).body =
        ⟨defaultIfFalsy f "sans-serif" stripQuotes, defaultIfFalsy s "16px" id,
         defaultIfFalsy w "400" id, defaultIfFalsy lh "normal" id⟩ := by
      simp [extract_typography, hb]
    refine ⟨?_, ?_, ?_, ?_, ?_, ?_, ?_, ?_⟩
    · intro hf
      rw [hbd]
      exact defaultIfFalsy_of_falsy hf
    · rintro fs rfl hne
      rw [hbd]
      simp [defaultIfFalsy, hne]
    · intro hs
      rw [hbd]
      exact defaultIfFalsy_of_falsy hs
    · rintro ss rfl hne
      rw [hbd]
      simp [defaultIfFalsy, hne]
    · intro hw
      rw [hbd]
      exact defaultIfFalsy_of_falsy hw
    · rintro ws rfl hne
      rw [hbd]
      simp [defaultIfFalsy, hne]
    · intro hlh
      rw [hbd]
      exact defaultIfFalsy_of_falsy hlh
    · rintro ls rfl hne
      rw [hbd]
      simp [defaultIfFalsy, hne]
  · rcases hb : ti.bodyStyles with _ | quad
    · simp only [extract_typography, hb]
      decide
    · obtain ⟨f, s, w, lh⟩ := quad
      have hbd : (extract_typography ti).body.font_family
          = defaultIfFalsy f "sans-serif" stripQuotes := by
        simp [extract_typography, hb]
      rw [hbd]
      exact defaultIfFalsy_family_quotes f
  · intro d hd
    rcases hd with hd | hd | hd | hd | hd | hd
    · exact hlev ti.h1 d hd
    · exact hlev ti.h2 d hd
    · exact hlev ti.h3 d hd
    · exact hlev ti.h4 d hd
    · exact hlev ti.h5 d hd
    · exact hlev ti.h6 d hd

/-- C8 witness: the body defaults evaluated at a run where every
browser query raised. -/
theorem C8_typography_contract_witness :
    (extract_typography tiNoneInputs).body = ⟨"sans-serif", "16px", "400", "normal"⟩ ∧
    ((extract_typography_heading (some "Georgia") (some "32px") (some "700")).isSome = true ↔
      truthyStr (some "Georgia") = true ∧ truthyStr (some "32px") = true ∧
        truthyStr (some "700") = true) :=
  ⟨(C8_typography_contract tiNoneInputs).1 rfl,
   (C8_typography_contract tiNoneInputs).2.2.1 (some "Georgia") (some "32px") (some "700")⟩

/-- C9 confirmed: a plugin whose category set lacks the detected type is
skipped with no effect, no applicable plugin means the schema is
returned unchanged, and a plugin that raises on every schema is caught
and the remaining plugins still run. -/
theorem C9_plugin_dispatch {σ : Type} (t : String) :
    (∀ (ps1 ps2 : List (Plugin σ)) (p : Plugin σ) (s : σ),
      p.applies_to t = false →
      enhance_with_plugins (ps1 ++ p :: ps2) s t = enhance_with_plugins (ps1 ++ ps2) s t) ∧
    (∀ (plugins : List (Plugin σ)) (s : σ),
      (∀ p ∈ plugins, p.applies_to t = false) → enhance_with_plugins plugins s t = s) ∧
    (∀ (ps1 ps2 : List (Plugin σ)) (p : Plugin σ) (s : σ),
      (∀ x, p.enhance x = Except.error x) →
      enhance_with_plugins (ps1 ++ p :: ps2) s t = enhance_with_plugins (ps1 ++ ps2) s t) := by
  refine ⟨?_, ?_, ?_⟩
  · intro ps1 ps2 p s hna
    simp only [enhance_with_plugins, List.foldl_append, List.foldl_cons]
    rw [show applyPlugin t (List.foldl (applyPlugin t) s ps1) p
        = List.foldl (applyPlugin t) s ps1 from by simp [applyPlugin, hna]]
  · intro plugins s hall
    induction plugins with
    | nil => rfl
    | cons p ps ih =>
      have hp : p.applies_to t = false := hall p (List.mem_cons_self p ps)
      show List.foldl (applyPlugin t) (applyPlugin t s p) ps = s
      rw [show applyPlugin t s p = s from by simp [applyPlugin, hp]]
      exact ih (fun q hq => hall q (List.mem_cons_of_mem _ hq))
  · intro ps1 ps2 p s hfail
    simp only [enhance_with_plugins, List.foldl_append, List.foldl_cons]
    rw [show applyPlugin t (List.foldl (applyPlugin t) s ps1) p
        = List.foldl (applyPlugin t) s ps1 from by simp [applyPlugin, hfail]]

/-- C9 witness: a wordpress-only plugin is skipped for the general
category, and an always-raising plugin leaves a later applicable
plugin's effect intact. -/
theorem C9_plugin_dispatch_witness :
    enhance_with_plugins [wpPluginNat] 5 "general" = 5 ∧
    enhance_with_plugins [failPluginNat, wpPluginNat] 5 "general"
      = enhance_with_plugins [wpPluginNat] 5 "general" :=
  ⟨(C9_plugin_dispatch "general").2.1 [wpPluginNat] 5
      (by intro p hp; simp only [List.mem_singleton] at hp; subst hp; decide),
   (C9_plugin_dispatch "general").2.2 [] [wpPluginNat] failPluginNat 5 (fun _ => rfl)⟩

/-- C10 confirmed: rgb_to_hex either returns none or a string matching
the lowercase six-hex-digit pattern, and any input without the
substring rgb (case-insensitively) returns none. -/
theorem C10_rgb_to_hex_safety (s : String) :
    (∀ out, rgb_to_hex s = some out → isLowerHexColor out = true) ∧
    (containsRGB s = false → rgb_to_hex s = none) := by
  constructor
  · intro out h
    exact rgb_to_hex_some_lower h
  · intro h
    unfold rgb_to_hex
    rw [h]
    simp

/-- C10 witness: a six-digit hex literal and a named CSS color are
rejected. -/
theorem C10_rgb_to_hex_safety_witness :
    rgb_to_hex "#ff0000" = none ∧ rgb_to_hex "red" = none :=
  ⟨(C10_rgb_to_hex_safety "#ff0000").2 (by decide),
   (C10_rgb_to_hex_safety "red").2 (by decide)⟩

end DesignScraper
